import Mathlib

/-!
Shallow embedding of `src/manim/animation/animation.py` (classes `Animation`
and `Wait`, and the module-level function `prepare_animation`).

Modelling choices:
- Python floats are modelled as rationals (`ℚ`); all the arithmetic in the
  source (`get_sub_alpha`, clamping in `interpolate`) is exact on rationals.
- A `Mobject` (the external Renderable collaborator) is modelled by the data
  this module observes: its list of family members with points (abstract
  member identifiers), its updating-suspension flag, and the
  `shader_wrapper_list` attribute that `Wait.__init__` assigns.
- Side effects on submobjects (calls to `interpolate_submobject`,
  `resume_updating`, `mob.update`, `scene.remove`) are modelled as an
  explicit event trace emitted by each lifecycle method, together with the
  updated `Animation` state where the source mutates `self`.
- Python `raise TypeError(...)` is modelled with `Except PyError`.
-/

/-- Model of the external Renderable (`Mobject` / `OpenGLMobject`): only the
data this module observes. `members` stands for the stable ordered list of
family members with points (abstract identifiers). -/
structure Mobject where
  members : List ℕ
  updatingSuspended : Bool := false
  shader_wrapper_list : List ℕ := []
  deriving DecidableEq

/-- `Mobject.family_members_with_points` as consumed by
`Animation.get_all_families_zipped`. -/
def Mobject.family_members_with_points (m : Mobject) : List ℕ := m.members

/-- Deep copy of a Renderable: a structurally identical, independently
mutable value (value semantics makes this the identity on the model). -/
def Mobject.copy (m : Mobject) : Mobject := m

/-- `Mobject.suspend_updating`: pause autonomous per-frame mutation. -/
def Mobject.suspend_updating (m : Mobject) : Mobject :=
  { m with updatingSuspended := true }

/-- `Mobject.resume_updating`: resume autonomous per-frame mutation. -/
def Mobject.resume_updating (m : Mobject) : Mobject :=
  { m with updatingSuspended := false }

/-- A freshly constructed `Mobject()` (sentinel empty object). -/
def emptyMobject : Mobject := { members := [] }

/-- A `TypeError`-class Python error. -/
inductive PyError where
  | typeError (msg : String)
  deriving DecidableEq

/-- The possible values of the `mobject` argument to `Animation.__init__`:
`None`, a `Mobject`, an `OpenGLMobject`, or anything else (invalid). -/
inductive TargetInput where
  | absent
  | mobj (m : Mobject)
  | oglMobj (m : Mobject)
  | invalid (desc : String)
  deriving DecidableEq

/-- Whether the target input is `None`. -/
def TargetInput.isAbsent : TargetInput → Bool
  | .absent => true
  | _ => false

/-- Whether the target input is a recognized Renderable
(`Mobject` or `OpenGLMobject` instance). -/
def TargetInput.isRenderable : TargetInput → Bool
  | .mobj _ => true
  | .oglMobj _ => true
  | _ => false

/-- The state of an `Animation` instance (fields assigned in
`Animation.__init__`; `rate_func` is the opaque ProgressCurve). -/
structure Animation where
  run_time : ℚ := 1
  rate_func : ℚ → ℚ
  name : Option String := none
  remover : Bool := false
  suspend_mobject_updating : Bool := true
  lag_ratio : ℚ := 0
  starting_mobject : Mobject := emptyMobject
  mobject : Mobject := emptyMobject

/-- `Animation._typecheck_input`: `None` only logs a debug message; a value
that is neither a `Mobject` nor an `OpenGLMobject` raises
`TypeError("Animation only works on Mobjects")`. -/
def typecheck_input : TargetInput → Except PyError Unit
  | .invalid _ => .error (.typeError "Animation only works on Mobjects")
  | _ => .ok ()

/-- `Animation.__init__`: runs `_typecheck_input`, then assigns the fields;
`self.mobject` is the given mobject, or a fresh `Mobject()` when `None`.
(Logging of extra kwargs and the CONFIG check are pure logging and are not
modelled.) -/
def mkAnimation (target : TargetInput) (lag_ratio run_time : ℚ)
    (rate_func : ℚ → ℚ) (name : Option String)
    (remover suspend_mobject_updating : Bool) : Except PyError Animation :=
  match typecheck_input target with
  | .error e => .error e
  | .ok _ =>
    .ok { run_time := run_time
          rate_func := rate_func
          name := name
          remover := remover
          suspend_mobject_updating := suspend_mobject_updating
          lag_ratio := lag_ratio
          starting_mobject := emptyMobject
          mobject :=
            match target with
            | .mobj m => m
            | .oglMobj m => m
            | _ => emptyMobject }

/-- Whether an `Except` result is an error (a raised exception). -/
def exceptIsError {α : Type} : Except PyError α → Bool
  | .error _ => true
  | .ok _ => false

/-- `Animation.get_sub_alpha(alpha, index, num_submobjects)`, line for line:
`full_length = (num_submobjects - 1) * lag_ratio + 1`;
`value = alpha * full_length`; `lower = index * lag_ratio`;
result `min(max(value - lower, 0), 1)`. -/
def Animation.get_sub_alpha (self : Animation) (alpha : ℚ) (index : ℕ)
    (num_submobjects : ℕ) : ℚ :=
  let lag_ratio := self.lag_ratio
  let full_length := ((num_submobjects : ℚ) - 1) * lag_ratio + 1
  let value := alpha * full_length
  let lower := (index : ℚ) * lag_ratio
  min (max (value - lower) 0) 1

/-- `Animation.get_all_mobjects`: `(self.mobject, self.starting_mobject)`. -/
def Animation.get_all_mobjects (self : Animation) : Mobject × Mobject :=
  (self.mobject, self.starting_mobject)

/-- `Animation.get_all_families_zipped`: zip of the two families (Python
`zip` truncates to the shorter list, as `List.zip` does). -/
def Animation.get_all_families_zipped (self : Animation) : List (ℕ × ℕ) :=
  self.mobject.family_members_with_points.zip
    self.starting_mobject.family_members_with_points

/-- Observable effects of the lifecycle methods: a call to the
per-submobject hook `interpolate_submobject(cur, start, alpha)` at a family
index, suspension/resumption of the target's updating, `mob.update(dt)`,
and `scene.remove(mobject)`. -/
inductive Event where
  | interpolateSubmobject (index : ℕ) (cur : ℕ) (start : ℕ) (alpha : ℚ)
  | suspendUpdating
  | resumeUpdating
  | advance (dt : ℚ)
  | sceneRemove (m : Mobject)
  deriving DecidableEq

/-- `Animation.interpolate_mobject(alpha)`: enumerate the zipped families;
for each index `i` compute `sub_alpha = get_sub_alpha(alpha, i, len(families))`
and invoke `interpolate_submobject(*mobs, sub_alpha)` (recorded as an event;
the base-class hook body is `pass`). -/
def Animation.interpolate_mobject (self : Animation) (alpha : ℚ) :
    List Event :=
  let families := self.get_all_families_zipped
  families.enum.map fun p =>
    Event.interpolateSubmobject p.1 p.2.1 p.2.2
      (self.get_sub_alpha alpha p.1 families.length)

/-- `Animation.interpolate(alpha)`:
`alpha = min(max(alpha, 0), 1)`, then `interpolate_mobject(rate_func(alpha))`. -/
def Animation.interpolate (self : Animation) (alpha : ℚ) : List Event :=
  let alpha1 := min (max alpha 0) 1
  self.interpolate_mobject (self.rate_func alpha1)

/-- `Animation.create_starting_mobject`: `self.mobject.copy()`. -/
def Animation.create_starting_mobject (self : Animation) : Mobject :=
  self.mobject.copy

/-- `Animation.begin()`: capture `starting_mobject`, suspend the target's
updating when `suspend_mobject_updating` is set, then `interpolate(0)`. -/
def Animation.begin (self : Animation) : Animation × List Event :=
  let a1 := { self with starting_mobject := self.create_starting_mobject }
  let a2 :=
    if a1.suspend_mobject_updating then
      { a1 with mobject := a1.mobject.suspend_updating }
    else a1
  (a2, (if a1.suspend_mobject_updating then [Event.suspendUpdating] else [])
        ++ a2.interpolate 0)

/-- `Animation.finish()`: `interpolate(1)`, then when
`suspend_mobject_updating` is set, `self.mobject.resume_updating()`.
(The source also guards `self.mobject is not None`, but `__init__` always
assigns a non-`None` mobject, so the guard is vacuous.) -/
def Animation.finish (self : Animation) : Animation × List Event :=
  let ev := self.interpolate 1
  if self.suspend_mobject_updating then
    ({ self with mobject := self.mobject.resume_updating },
      ev ++ [Event.resumeUpdating])
  else (self, ev)

/-- `Animation.is_remover`: `self.remover`. -/
def Animation.is_remover (self : Animation) : Bool := self.remover

/-- `Animation.clean_up_from_scene(scene)`: when `is_remover()`,
`scene.remove(self.mobject)`; the scene is modelled as its mobject list. -/
def Animation.clean_up_from_scene (self : Animation) (scene : List Mobject) :
    List Mobject × List Event :=
  if self.is_remover then
    (scene.erase self.mobject, [Event.sceneRemove self.mobject])
  else (scene, [])

/-- `Animation.get_all_mobjects_to_update`: all tracked mobjects except
`self.mobject` itself (the source filters by object identity;
`starting_mobject` is always a distinct object from `mobject`). -/
def Animation.get_all_mobjects_to_update (self : Animation) : List Mobject :=
  [self.starting_mobject]

/-- `Animation.update_mobjects(dt)`: `mob.update(dt)` for every mobject
needing update (the advance itself happens inside the external Renderable). -/
def Animation.update_mobjects (self : Animation) (dt : ℚ) :
    Animation × List Event :=
  (self, self.get_all_mobjects_to_update.map fun _ => Event.advance dt)

/-- A deferred animation builder (`_AnimationBuilder`): the only part of it
this module consumes is its `build()` step, which materializes an
`Animation`. -/
structure AnimationBuilder where
  build : Animation

/-- The possible inputs to `prepare_animation`: an `Animation`, one of the
two `_AnimationBuilder` kinds (cairo/opengl), or any other object — the
source's doctest uses a plain number, modelled by `num`. -/
inductive AnimationInput where
  | anim (a : Animation)
  | builder (b : AnimationBuilder)
  | oglBuilder (b : AnimationBuilder)
  | num (z : ℤ)

/-- `prepare_animation(anim)`: builders are built, an `Animation` is
returned unchanged, anything else raises
`TypeError(f"Object {anim} cannot be converted to an animation")`. -/
def prepare_animation : AnimationInput → Except PyError Animation
  | .builder b => .ok b.build
  | .oglBuilder b => .ok b.build
  | .anim a => .ok a
  | .num z =>
    .error (.typeError
      ("Object " ++ toString z ++ " cannot be converted to an animation"))

/-- The state of a `Wait` instance: its `Animation` state plus the fields
`Wait.__init__` adds (`duration`, `stop_condition`, `is_static_wait`). -/
structure Wait where
  duration : ℚ
  stop_condition : Option (ℚ → Bool) := none
  is_static_wait : Bool := false
  toAnimation : Animation

/-- `Wait.__init__(run_time, stop_condition)`: sets the extra fields, calls
`Animation.__init__(None, run_time=run_time)` (so the mobject is a fresh
`Mobject()`), then clears `self.mobject.shader_wrapper_list`. -/
def mkWait (run_time : ℚ) (stop_condition : Option (ℚ → Bool))
    (rate_func : ℚ → ℚ) : Wait :=
  { duration := run_time
    stop_condition := stop_condition
    is_static_wait := false
    toAnimation :=
      { run_time := run_time
        rate_func := rate_func
        mobject := { emptyMobject with shader_wrapper_list := [] } } }

/-- `Wait.begin`: `pass`. -/
def Wait.begin (self : Wait) : Wait × List Event := (self, [])

/-- `Wait.finish`: `pass`. -/
def Wait.finish (self : Wait) : Wait × List Event := (self, [])

/-- `Wait.clean_up_from_scene(scene)`: `pass`. -/
def Wait.clean_up_from_scene (self : Wait) (scene : List Mobject) :
    Wait × List Mobject × List Event := (self, scene, [])

/-- `Wait.update_mobjects(dt)`: `pass`. -/
def Wait.update_mobjects (self : Wait) (_dt : ℚ) : Wait × List Event :=
  (self, [])

/-- `Wait.interpolate(alpha)`: `pass`. -/
def Wait.interpolate (self : Wait) (_alpha : ℚ) : Wait × List Event :=
  (self, [])

/-- Modelled from the spec: `clamp(x, lo, hi)` as used in §4.2's formula
(`min`/`max` realisation, matching "clamped" in the spec's text). -/
def clamp (x lo hi : ℚ) : ℚ := min (max x lo) hi

/-- Modelled from the spec (§4.2 SubAlphaScheduler), word for word:
`fullLength = (n - 1) * staggerRatio + 1`; `value = alpha * fullLength`;
`lower = i * staggerRatio`; `localAlpha = clamp(value - lower, 0, 1)`. -/
def spec_sub_alpha (staggerRatio alpha : ℚ) (i n : ℕ) : ℚ :=
  clamp (alpha * (((n : ℚ) - 1) * staggerRatio + 1) - (i : ℚ) * staggerRatio)
    0 1

/-- Unfolded form of `get_sub_alpha` (the four local variables inlined). -/
lemma get_sub_alpha_eq (a : Animation) (alpha : ℚ) (i n : ℕ) :
    a.get_sub_alpha alpha i n
      = min (max (alpha * (((n : ℚ) - 1) * a.lag_ratio + 1)
                    - (i : ℚ) * a.lag_ratio) 0) 1 := rfl

/-- A clamp to `[0,1]` of a nonpositive value is `0`. -/
lemma clamp01_of_nonpos {x : ℚ} (h : x ≤ 0) : min (max x 0) 1 = 0 := by
  rw [max_eq_right h]
  exact min_eq_left zero_le_one

/-- A clamp to `[0,1]` of a value that is at least `1` is `1`. -/
lemma clamp01_of_one_le {x : ℚ} (h : 1 ≤ x) : min (max x 0) 1 = 1 := by
  rw [max_eq_left (le_trans zero_le_one h)]
  exact min_eq_right h

/-- `get_sub_alpha` never returns a negative value. -/
lemma get_sub_alpha_nonneg (a : Animation) (alpha : ℚ) (i n : ℕ) :
    0 ≤ a.get_sub_alpha alpha i n := by
  rw [get_sub_alpha_eq]
  exact le_min (le_max_right _ _) zero_le_one

/-- `get_sub_alpha` never returns a value above `1`. -/
lemma get_sub_alpha_le_one (a : Animation) (alpha : ℚ) (i n : ℕ) :
    a.get_sub_alpha alpha i n ≤ 1 := by
  rw [get_sub_alpha_eq]
  exact min_le_right _ _

/-- Claim C1: for every eased alpha, family index `i` and family size `n`,
`Animation.get_sub_alpha alpha i n` equals the spec §4.2 formula
`clamp(alpha * ((n - 1) * staggerRatio + 1) - i * staggerRatio, 0, 1)`
with `staggerRatio` the animation's `lag_ratio`. -/
theorem get_sub_alpha_matches_spec (a : Animation) (alpha : ℚ) (i n : ℕ) :
    a.get_sub_alpha alpha i n = spec_sub_alpha a.lag_ratio alpha i n := rfl

/-- An animation with `lag_ratio = 1/2` (and a linear rate function), whose
target family has three members, as in the spec's worked scenario. -/
def scenarioAnim : Animation :=
  { rate_func := id
    lag_ratio := 1/2
    mobject := { members := [0, 1, 2] }
    starting_mobject := { members := [0, 1, 2] } }

/-- Claim C2, counterexample: at eased alpha `0.4`, index 0, family size 3,
`get_sub_alpha` does NOT yield the spec scenario's `0.6`
(the code computes `full_length = (3-1)*0.5+1 = 2`, not `1.5`). -/
theorem scenario_claim_false :
    ¬ (scenarioAnim.get_sub_alpha (2/5) 0 3 = 3/5) := by
  rw [get_sub_alpha_eq, show scenarioAnim.lag_ratio = 1/2 from rfl]
  norm_num [min_def, max_def]

/-- Claim C2, amended: with family size 3 and `lag_ratio = 1/2`, at eased
alpha `0.4` the code's `full_length` is `(3-1)*0.5+1 = 2`, `value = 0.8`,
and the local alphas are `0.8`, `0.3`, `0` for indices 0, 1, 2. -/
theorem scenario_amended :
    scenarioAnim.get_sub_alpha (2/5) 0 3 = 4/5
    ∧ scenarioAnim.get_sub_alpha (2/5) 1 3 = 3/10
    ∧ scenarioAnim.get_sub_alpha (2/5) 2 3 = 0 := by
  refine ⟨?_, ?_, ?_⟩ <;>
    · rw [get_sub_alpha_eq, show scenarioAnim.lag_ratio = 1/2 from rfl]
      norm_num [min_def, max_def]

/-- Claim C3: for `lag_ratio ∈ [0,1]`, family size `n ≥ 1` and index
`i < n`, `get_sub_alpha 0 i n = 0` and `get_sub_alpha 1 i n = 1`. -/
theorem get_sub_alpha_endpoints (a : Animation) (n i : ℕ)
    (h0 : 0 ≤ a.lag_ratio) (h1 : a.lag_ratio ≤ 1) (hn : 1 ≤ n) (hi : i < n) :
    a.get_sub_alpha 0 i n = 0 ∧ a.get_sub_alpha 1 i n = 1 := by
  have hil : (0 : ℚ) ≤ (i : ℚ) * a.lag_ratio :=
    mul_nonneg (Nat.cast_nonneg i) h0
  have hin : (i : ℚ) + 1 ≤ (n : ℚ) := by exact_mod_cast hi
  constructor
  · rw [get_sub_alpha_eq]
    apply clamp01_of_nonpos
    linarith
  · rw [get_sub_alpha_eq]
    apply clamp01_of_one_le
    have key : (0 : ℚ) ≤ ((n : ℚ) - 1 - (i : ℚ)) * a.lag_ratio :=
      mul_nonneg (by linarith) h0
    nlinarith [key]

/-- An animation with `lag_ratio = 1/2` and no family, used as a concrete
instance for the endpoint property. -/
def halfLagAnim : Animation := { rate_func := id, lag_ratio := 1/2 }

/-- Claim C3, witness: the endpoint property at `lag_ratio = 1/2`, `n = 2`,
`i = 1`. -/
theorem get_sub_alpha_endpoints_witness :
    (0 ≤ halfLagAnim.lag_ratio ∧ halfLagAnim.lag_ratio ≤ 1
      ∧ 1 ≤ 2 ∧ 1 < 2)
    ∧ (halfLagAnim.get_sub_alpha 0 1 2 = 0
        ∧ halfLagAnim.get_sub_alpha 1 1 2 = 1) :=
  have hl : halfLagAnim.lag_ratio = 1/2 := rfl
  ⟨⟨by rw [hl]; norm_num, by rw [hl]; norm_num, by decide, by decide⟩,
    get_sub_alpha_endpoints halfLagAnim 2 1 (by rw [hl]; norm_num)
      (by rw [hl]; norm_num) (by decide) (by decide)⟩

/-- Clamping to `[0,1]` is idempotent. -/
lemma clamp01_idem (x : ℚ) : clamp (clamp x 0 1) 0 1 = clamp x 0 1 := by
  unfold clamp
  rw [max_eq_left (le_min (le_max_right x 0) zero_le_one),
    min_eq_left (min_le_right (max x 0) 1)]

/-- Claim C4: `interpolate(alpha)` clamps `alpha` to `[0,1]` and hands
`rate_func` of the clamped value to `interpolate_mobject`; consequently
`interpolate(alpha)` behaves identically to `interpolate(clamp(alpha,0,1))`
for every alpha, clamped or not. -/
theorem interpolate_clamps (a : Animation) (alpha : ℚ) :
    a.interpolate alpha = a.interpolate_mobject (a.rate_func (clamp alpha 0 1))
    ∧ a.interpolate alpha = a.interpolate (clamp alpha 0 1) := by
  constructor
  · rfl
  · have h : min (max (clamp alpha 0 1) 0) 1 = min (max alpha 0) 1 :=
      clamp01_idem alpha
    show a.interpolate_mobject (a.rate_func (min (max alpha 0) 1))
        = a.interpolate_mobject (a.rate_func (min (max (clamp alpha 0 1) 0) 1))
    rw [h]

/-- Claim C5: `prepare_animation` returns an `Animation` input unchanged,
returns the `build()` result for either builder kind, and raises a
`TypeError` naming the input for anything else. -/
theorem prepare_animation_cases :
    (∀ a : Animation, prepare_animation (AnimationInput.anim a) = Except.ok a)
    ∧ (∀ b : AnimationBuilder,
        prepare_animation (AnimationInput.builder b) = Except.ok b.build)
    ∧ (∀ b : AnimationBuilder,
        prepare_animation (AnimationInput.oglBuilder b) = Except.ok b.build)
    ∧ (∀ z : ℤ, prepare_animation (AnimationInput.num z)
        = Except.error (PyError.typeError
            ("Object " ++ toString z ++ " cannot be converted to an animation"))) :=
  ⟨fun _ => rfl, fun _ => rfl, fun _ => rfl, fun _ => rfl⟩

/-- Claim C6: constructing an `Animation` raises a `TypeError` exactly when
the supplied target is neither absent (`None`) nor a recognized Renderable;
with an absent or Renderable target construction succeeds. -/
theorem mkAnimation_typecheck (t : TargetInput) (lag rt : ℚ)
    (rf : ℚ → ℚ) (nm : Option String) (rem su : Bool) :
    exceptIsError (mkAnimation t lag rt rf nm rem su)
      = (!t.isAbsent && !t.isRenderable) := by
  cases t <;> rfl

/-- The events emitted by `interpolate` are all per-submobject hook calls;
in particular, no `resume_updating` happens during interpolation. -/
lemma resume_not_mem_interpolate (a : Animation) (alpha : ℚ) :
    Event.resumeUpdating ∉ a.interpolate alpha := by
  simp only [Animation.interpolate, Animation.interpolate_mobject,
    List.mem_map]
  rintro ⟨p, -, hp⟩
  exact Event.noConfusion hp

/-- Claim C7: `finish()` first performs `interpolate(1)` and only
afterwards resumes the target's updating, and the resume happens exactly
when `suspend_mobject_updating` is set. -/
theorem finish_interpolates_then_resumes (a : Animation) :
    a.finish.2
        = a.interpolate 1
          ++ (if a.suspend_mobject_updating then [Event.resumeUpdating] else [])
    ∧ Event.resumeUpdating ∉ a.interpolate 1
    ∧ (Event.resumeUpdating ∈ a.finish.2 ↔ a.suspend_mobject_updating = true) := by
  refine ⟨?_, resume_not_mem_interpolate a 1, ?_⟩
  · cases hs : a.suspend_mobject_updating <;> simp [Animation.finish, hs]
  · cases hs : a.suspend_mobject_updating <;>
      simp [Animation.finish, hs, resume_not_mem_interpolate a 1]

/-- Claim C8: every lifecycle method of `Wait` is a no-op: it leaves the
`Wait` (hence its mobject) and the scene unchanged and emits no events. -/
theorem wait_noops (w : Wait) (alpha dt : ℚ) (s : List Mobject) :
    w.begin = (w, ([] : List Event))
    ∧ w.finish = (w, ([] : List Event))
    ∧ w.clean_up_from_scene s = (w, s, ([] : List Event))
    ∧ w.update_mobjects dt = (w, ([] : List Event))
    ∧ w.interpolate alpha = (w, ([] : List Event)) :=
  ⟨rfl, rfl, rfl, rfl, rfl⟩

/-- Claim C9: when the zipped flattened families are empty,
`interpolate_mobject` is a no-op for every alpha: the per-submobject hook
is invoked zero times (and, the function being total, no error and in
particular no division by zero occurs — `get_sub_alpha` contains no
division at all). -/
theorem interpolate_mobject_empty_noop (a : Animation) (alpha : ℚ)
    (h : a.get_all_families_zipped = []) :
    a.interpolate_mobject alpha = [] := by
  simp [Animation.interpolate_mobject, h]

/-- Claim C9, witness: a concrete animation whose families are empty, at
alpha `3/7`. -/
theorem interpolate_mobject_empty_noop_witness :
    halfLagAnim.get_all_families_zipped = []
    ∧ halfLagAnim.interpolate_mobject (3/7) = [] :=
  ⟨rfl, interpolate_mobject_empty_noop halfLagAnim (3/7) rfl⟩

/-- Claim C10: every local alpha handed to the per-submobject hook by
`interpolate` lies in `[0,1]`, whatever the input alpha, the rate
function, and the lag ratio. -/
theorem interpolate_sub_alphas_unit (a : Animation) (alpha sa : ℚ)
    (i c s : ℕ)
    (h : Event.interpolateSubmobject i c s sa ∈ a.interpolate alpha) :
    0 ≤ sa ∧ sa ≤ 1 := by
  simp only [Animation.interpolate, Animation.interpolate_mobject,
    List.mem_map] at h
  obtain ⟨p, -, hp⟩ := h
  injection hp with h1 h2 h3 h4
  rw [← h4]
  exact ⟨get_sub_alpha_nonneg _ _ _ _, get_sub_alpha_le_one _ _ _ _⟩

/-- An animation with a one-member family and a linear rate function. -/
def singleFamilyAnim : Animation :=
  { rate_func := id
    lag_ratio := 0
    mobject := { members := [5] }
    starting_mobject := { members := [5] } }

/-- Claim C10, witness: at input alpha `1/2` the hook receives local alpha
`1/2`, which lies in `[0,1]`. -/
theorem interpolate_sub_alphas_unit_witness :
    Event.interpolateSubmobject 0 5 5 (1/2) ∈ singleFamilyAnim.interpolate (1/2)
    ∧ (0 ≤ (1/2 : ℚ) ∧ (1/2 : ℚ) ≤ 1) :=
  have hc : min (max (1/2 : ℚ) 0) 1 = 1/2 := by norm_num [min_def, max_def]
  have hsa : singleFamilyAnim.get_sub_alpha (1/2) 0 1 = 1/2 := by
    rw [get_sub_alpha_eq, show singleFamilyAnim.lag_ratio = 0 from rfl]
    norm_num [min_def, max_def]
  have htr : singleFamilyAnim.interpolate (1/2)
      = [Event.interpolateSubmobject 0 5 5 (1/2)] := by
    show singleFamilyAnim.interpolate_mobject
        (singleFamilyAnim.rate_func (min (max (1/2 : ℚ) 0) 1))
      = [Event.interpolateSubmobject 0 5 5 (1/2)]
    rw [hc]
    show [Event.interpolateSubmobject 0 5 5
        (singleFamilyAnim.get_sub_alpha (1/2) 0 1)]
      = [Event.interpolateSubmobject 0 5 5 (1/2)]
    rw [hsa]
  have hmem : Event.interpolateSubmobject 0 5 5 (1/2)
      ∈ singleFamilyAnim.interpolate (1/2) := by
    rw [htr]
    exact List.mem_singleton.mpr rfl
  ⟨hmem, interpolate_sub_alphas_unit singleFamilyAnim (1/2) (1/2) 0 5 5 hmem⟩
